import Mathlib

/-
Verification of the Property Search & Engagement Analytics Engine of a
real-estate marketplace backend.  The definitions below are shallow
embeddings of the JavaScript source:

  * `src/models/PropertyView.js`   - view events, engagement scoring,
    uniqueness classification, trending aggregation;
  * `src/services/searchService.js` - filtered / sorted property search;
  * `src/services/propertyService.js` - getPropertyById, getSimilarProperties,
    getTrendingProperties (listing-based variant);
  * `src/utils/aggregationPipelines.js` - trendingPropertiesPipeline;
  * `src/validators/propertyValidator.js` - validateSearchProperties.

JavaScript numbers are modelled as `ℚ` (prices, scores) or `ℕ`/`ℤ`
(counters, timestamps in milliseconds); Mongo documents are Lean
structures; collections are Lean lists; `findByIdAndUpdate` etc. become
explicit state transformers.
-/

namespace RealEstate

/-- Interaction flags of the `interactions` subdocument of a
`PropertyView` document.  The numeric `imageViews` counter is omitted:
no logic under verification reads it. -/
structure Interactions where
  imageGalleryOpened : Bool
  mapViewed : Bool
  contactClicked : Bool
  phoneRevealed : Bool
  whatsappClicked : Bool
  shareClicked : Bool
  favorited : Bool
  inquirySent : Bool
deriving DecidableEq, Repr

/-- All-false interactions, the schema defaults of the
`interactions` subdocument. -/
def Interactions.noFlags : Interactions :=
  ⟨false, false, false, false, false, false, false, false⟩

/-- All interaction flags set. -/
def Interactions.allFlags : Interactions :=
  ⟨true, true, true, true, true, true, true, true⟩

/-- Pointwise order on interaction bundles: every flag set on the left
is also set on the right. -/
def Interactions.le (a b : Interactions) : Prop :=
  (a.imageGalleryOpened = true → b.imageGalleryOpened = true) ∧
  (a.mapViewed = true → b.mapViewed = true) ∧
  (a.contactClicked = true → b.contactClicked = true) ∧
  (a.phoneRevealed = true → b.phoneRevealed = true) ∧
  (a.whatsappClicked = true → b.whatsappClicked = true) ∧
  (a.shareClicked = true → b.shareClicked = true) ∧
  (a.favorited = true → b.favorited = true) ∧
  (a.inquirySent = true → b.inquirySent = true)

instance : DecidablePred (fun p : Interactions × Interactions => Interactions.le p.1 p.2) :=
  fun _ => by unfold Interactions.le; infer_instance

instance (a b : Interactions) : Decidable (Interactions.le a b) := by
  unfold Interactions.le; infer_instance

/-- JavaScript `Math.round` on the non-negative quantities occurring
here: round half away from zero, i.e. `⌊q + 1/2⌋`. -/
def jsRound (q : ℚ) : ℤ := ⌊q + 1 / 2⌋

/-- Duration contribution of the `engagementScore` virtual:
`if (this.viewDuration > 0) score += Math.min(30, (this.viewDuration / 300) * 30)`. -/
def durationScore (d : ℕ) : ℚ :=
  if 0 < d then min 30 ((d : ℚ) / 300 * 30) else 0

/-- Interaction-flag contribution of the `engagementScore` virtual:
fixed weights gallery 5, map 5, contact 10, phone 8, whatsapp 7,
favorited 10, inquiry 15 (`shareClicked` carries no weight). -/
def interactionsScore (i : Interactions) : ℚ :=
  (if i.imageGalleryOpened then 5 else 0) +
  (if i.mapViewed then 5 else 0) +
  (if i.contactClicked then 10 else 0) +
  (if i.phoneRevealed then 8 else 0) +
  (if i.whatsappClicked then 7 else 0) +
  (if i.favorited then 10 else 0) +
  (if i.inquirySent then 15 else 0)

/-- The raw (pre-round, pre-clamp) engagement score: duration part,
plus `(this.scrollDepth / 100) * 20`, plus the interaction weights. -/
def engagementRaw (d s : ℕ) (i : Interactions) : ℚ :=
  durationScore d + (s : ℚ) / 100 * 20 + interactionsScore i

/-- The `engagementScore` virtual of `PropertyView.js`:
`Math.min(100, Math.round(score))`. -/
def engagementScore (d s : ℕ) (i : Interactions) : ℤ :=
  min 100 (jsRound (engagementRaw d s i))

/-- The `isHighIntent` virtual: score at least 60, or inquiry sent, or
phone revealed. -/
def isHighIntent (d s : ℕ) (i : Interactions) : Bool :=
  decide (60 ≤ engagementScore d s i) || i.inquirySent || i.phoneRevealed

/-- Interaction names accepted by `updateInteraction`. -/
inductive InteractionKind
  | imageGalleryOpened
  | mapViewed
  | contactClicked
  | phoneRevealed
  | whatsappClicked
  | shareClicked
  | favorited
  | inquirySent
deriving DecidableEq, Repr

/-- Setting one interaction flag to `true` (the
`$set` of `interactions.<name> = true`). -/
def Interactions.setFlag (i : Interactions) : InteractionKind → Interactions
  | .imageGalleryOpened => { i with imageGalleryOpened := true }
  | .mapViewed => { i with mapViewed := true }
  | .contactClicked => { i with contactClicked := true }
  | .phoneRevealed => { i with phoneRevealed := true }
  | .whatsappClicked => { i with whatsappClicked := true }
  | .shareClicked => { i with shareClicked := true }
  | .favorited => { i with favorited := true }
  | .inquirySent => { i with inquirySent := true }

/-- Mutable per-document state of one `PropertyView` over its
lifecycle (duration, scroll, interactions, derived flags). -/
structure ViewEventState where
  viewDuration : ℕ
  scrollDepth : ℕ
  interactions : Interactions
  bounced : Bool
  isUnique : Bool
  exitedAt : Option ℤ
deriving DecidableEq, Repr

/-- The `pre("save")` middleware of `PropertyView.js`: set `bounced`
when `viewDuration < 10 && engagementScore < 10`; it never clears it. -/
def preSave (e : ViewEventState) : ViewEventState :=
  if e.viewDuration < 10 ∧ engagementScore e.viewDuration e.scrollDepth e.interactions < 10 then
    { e with bounced := true }
  else e

/-- A freshly created view document as produced by the `create` call
inside `recordView`: schema defaults for duration, scroll, interactions
and `bounced`, after which the save middleware runs. -/
def createdView (isUnique : Bool) : ViewEventState :=
  preSave
    { viewDuration := 0, scrollDepth := 0, interactions := Interactions.noFlags,
      bounced := false, isUnique := isUnique, exitedAt := none }

/-- The `endViewSession` static: a `findByIdAndUpdate` that sets the
final duration, scroll depth and exit time; no save middleware runs. -/
def endViewSession (duration scrollDepth : ℕ) (now : ℤ) (e : ViewEventState) : ViewEventState :=
  { e with viewDuration := duration, scrollDepth := scrollDepth, exitedAt := some now }

/-- The `updateInteraction` static: a `findByIdAndUpdate` `$set` of one
interaction flag to `true`; no save middleware runs. -/
def updateInteraction (k : InteractionKind) (e : ViewEventState) : ViewEventState :=
  { e with interactions := e.interactions.setFlag k }

/-- The `markHighIntent` instance method: sets `inquirySent` and saves
the document, so the save middleware runs. -/
def markHighIntent (e : ViewEventState) : ViewEventState :=
  preSave { e with interactions := { e.interactions with inquirySent := true } }

/-- One persisted `PropertyView` document: the fields read by
`recordView` and the trending aggregation. -/
structure ViewEventDoc where
  property : ℕ
  viewer : Option ℕ
  sessionId : String
  viewedAt : ℤ
  isUnique : Bool
  interactions : Interactions
deriving DecidableEq, Repr

/-- Milliseconds per day, `24 * 60 * 60 * 1000`. -/
def millisPerDay : ℤ := 24 * 60 * 60 * 1000

/-- The dedup `findOne` of `recordView` as JavaScript evaluates it: in
the object literal `{ viewer: userId, viewer: { $ne: null } }` the
second `viewer` key overwrites the first, so the first `$or` branch
reads `viewer != null` and the supplied user id is never consulted. -/
def recentViewExists (events : List ViewEventDoc) (propertyId : ℕ)
    (_userId : Option ℕ) (sessionId : String) (now : ℤ) : Bool :=
  let oneDayAgo := now - millisPerDay
  events.any fun e =>
    e.property == propertyId &&
    (e.viewer.isSome || e.sessionId == sessionId) &&
    decide (oneDayAgo ≤ e.viewedAt)

/-- Modelled from the spec: the uniqueness rule as the specification
words it - a prior event for the same listing blocks uniqueness only if
it carries the same authenticated viewer identity or the same session
id; anonymous views are deduplicated by session id alone. -/
def claimedRecentViewExists (events : List ViewEventDoc) (propertyId : ℕ)
    (userId : Option ℕ) (sessionId : String) (now : ℤ) : Bool :=
  let oneDayAgo := now - millisPerDay
  events.any fun e =>
    e.property == propertyId &&
    ((match userId with
      | some u => e.viewer == some u
      | none => false) || e.sessionId == sessionId) &&
    decide (oneDayAgo ≤ e.viewedAt)

/-- Feature subdocument of a listing (`features.facing`,
`features.furnishing`, `features.parking`). -/
structure ListingFeatures where
  facing : String
  furnishing : String
  parking : ℕ
deriving DecidableEq, Repr

/-- One `Property` document: the fields read by search, similar-listing
lookup, trending and the view recorder. -/
structure Listing where
  id : ℕ
  title : String
  type : String
  price : ℚ
  area : ℚ
  bedrooms : ℕ
  bathrooms : ℕ
  city : String
  location : String
  amenities : List String
  features : ListingFeatures
  isFeatured : Bool
  isVerified : Bool
  isActive : Bool
  status : String
  viewCount : ℕ
  uniqueViews : ℕ
  createdAt : ℤ
deriving DecidableEq, Repr

/-- Result of `PropertyView.recordView`: the created event plus the
updated event and property collections. -/
structure RecordViewResult where
  view : ViewEventDoc
  events : List ViewEventDoc
  properties : List Listing
deriving Repr

/-- The `recordView` static: classify uniqueness with the 24-hour
`findOne`, insert the event, then `$inc` the listing counters - both
counters on a unique view, only `viewCount` otherwise. -/
def recordView (properties : List Listing) (events : List ViewEventDoc)
    (propertyId : ℕ) (userId : Option ℕ) (sessionId : String) (now : ℤ) :
    RecordViewResult :=
  let isUnique := !(recentViewExists events propertyId userId sessionId now)
  let view : ViewEventDoc :=
    { property := propertyId, viewer := userId, sessionId := sessionId,
      viewedAt := now, isUnique := isUnique, interactions := Interactions.noFlags }
  let properties' := properties.map fun p =>
    if p.id = propertyId then
      if isUnique then
        { p with viewCount := p.viewCount + 1, uniqueViews := p.uniqueViews + 1 }
      else
        { p with viewCount := p.viewCount + 1 }
    else p
  ⟨view, view :: events, properties'⟩

/-- Insertion into a list ordered by the boolean relation `le`. -/
def insertByRel (le : α → α → Bool) (x : α) : List α → List α
  | [] => [x]
  | y :: ys => if le x y then x :: y :: ys else y :: insertByRel le x ys

/-- Comparison sort by the boolean relation `le`; model of a Mongo
`$sort` stage or a `.sort()` query option. -/
def sortByRel (le : α → α → Bool) : List α → List α
  | [] => []
  | x :: xs => insertByRel le x (sortByRel le xs)

/-- One row of the trending aggregation's `$group` stage, keyed by
property id. -/
structure TrendGroup where
  id : ℕ
  viewCount : ℕ
  uniqueViews : ℕ
  inquiries : ℕ
deriving DecidableEq, Repr

/-- The `$sort: { uniqueViews: -1, viewCount: -1 }` key of the trending
aggregation, as a boolean "may come before" relation. -/
def trendGroupLe (a b : TrendGroup) : Bool :=
  decide (b.uniqueViews < a.uniqueViews) ||
  (a.uniqueViews == b.uniqueViews && decide (b.viewCount ≤ a.viewCount))

/-- The `$group` row for property `k` over the windowed events. -/
def mkTrendGroup (recent : List ViewEventDoc) (k : ℕ) : TrendGroup :=
  let ge := recent.filter fun e => e.property == k
  { id := k,
    viewCount := ge.length,
    uniqueViews := (ge.filter fun e => e.isUnique).length,
    inquiries := (ge.filter fun e => e.interactions.inquirySent).length }

/-- The `PropertyView.getTrendingProperties` static: match events of the
trailing week, group per property, sort by unique then raw views
descending, `$limit`, then `$lookup` the property document and keep
groups whose property is active.  The `$limit` stage runs before the
`isActive` filter. -/
def getTrendingProperties (events : List ViewEventDoc) (properties : List Listing)
    (limit : ℕ) (now : ℤ) : List TrendGroup :=
  let oneWeekAgo := now - 7 * millisPerDay
  let recent := events.filter fun e => decide (oneWeekAgo ≤ e.viewedAt)
  let groups := ((recent.map fun e => e.property).dedup).map (mkTrendGroup recent)
  let sorted := sortByRel trendGroupLe groups
  (sorted.take limit).filter fun g =>
    properties.any fun p => p.id == g.id && p.isActive

/-- The `trendingPropertiesPipeline` of `aggregationPipelines.js`: match
active listings whose `createdAt` lies within the window, add
`trendScore = viewCount * 1 + uniqueViews * 2` from the listing's
cumulative lifetime counters, sort by score then raw views descending,
`$limit`.  The seller `$lookup`/`$project` stages only join external
data and are omitted. -/
def trendingPropertiesPipeline (properties : List Listing) (days limit : ℕ) (now : ℤ) :
    List (Listing × ℤ) :=
  let dateThreshold := now - (days : ℤ) * millisPerDay
  let matched := properties.filter fun p =>
    p.isActive && p.status == "active" && decide (dateThreshold ≤ p.createdAt)
  let scored := matched.map fun p =>
    (p, (p.viewCount : ℤ) * 1 + (p.uniqueViews : ℤ) * 2)
  let sorted := sortByRel
    (fun a b => decide (b.2 < a.2) || (a.2 == b.2 && decide (b.1.viewCount ≤ a.1.viewCount)))
    scored
  sorted.take limit

/-- Modelled from the spec: the trend score the claim describes, with
raw and unique view counts aggregated from ViewEvents inside the
trailing window: `rawViews * 1 + uniqueViews * 2`. -/
def claimedTrendScore (events : List ViewEventDoc) (propertyId : ℕ)
    (days : ℕ) (now : ℤ) : ℤ :=
  let threshold := now - (days : ℤ) * millisPerDay
  let windowed := events.filter fun e =>
    e.property == propertyId && decide (threshold ≤ e.viewedAt)
  (windowed.length : ℤ) * 1 + ((windowed.filter fun e => e.isUnique).length : ℤ) * 2

/-- The `propertyService.getPropertyById` read: fetch by id, and when
`incrementView` is set and the listing is active, `$inc` its
`viewCount`; returns the fetched document (pre-increment) and the
updated store.  The seller populate only joins external data and is
omitted. -/
def getPropertyById (properties : List Listing) (propertyId : ℕ)
    (incrementView : Bool) : Except String (Listing × List Listing) :=
  match properties.find? (fun p => p.id == propertyId) with
  | none => .error "Property not found"
  | some property =>
    let properties' :=
      if incrementView && property.isActive then
        properties.map fun p =>
          if p.id = propertyId then { p with viewCount := p.viewCount + 1 } else p
      else properties
    .ok (property, properties')

/-- The `propertyService.getSimilarProperties` lookup: listings of the
same type and city with price within `[0.7, 1.3]` times the reference
price, the reference itself excluded, truncated to `limit`.  The query
carries no sort stage. -/
def getSimilarProperties (properties : List Listing) (propertyId : ℕ)
    (limit : ℕ) : Except String (List Listing) :=
  match properties.find? (fun p => p.id == propertyId) with
  | none => .error "Property not found"
  | some property =>
    .ok ((properties.filter fun q =>
      q.id != propertyId && q.isActive && q.status == "active" &&
      q.type == property.type && q.city == property.city &&
      decide (property.price * (7 / 10) ≤ q.price) &&
      decide (q.price ≤ property.price * (13 / 10))).take limit)

/-- Modelled from the spec: the similarity score the claim says orders
the similar-listings result - exact type match 10, exact city match 5,
price within ten percent of the reference 5. -/
def claimedSimilarityScore (reference q : Listing) : ℤ :=
  (if q.type = reference.type then 10 else 0) +
  (if q.city = reference.city then 5 else 0) +
  (if reference.price * (9 / 10) ≤ q.price ∧ q.price ≤ reference.price * (11 / 10)
   then 5 else 0)

/-- Helper: does `needle` occur at the head of `hay`. -/
def startsW : List Char → List Char → Bool
  | _, [] => true
  | [], _ :: _ => false
  | a :: as, b :: bs => a == b && startsW as bs

/-- Helper: does `needle` occur anywhere inside `hay`. -/
def hasSub : List Char → List Char → Bool
  | [], needle => needle.isEmpty
  | a :: t, needle => startsW (a :: t) needle || hasSub t needle

/-- Case-insensitive substring match, the semantics of
`new RegExp(text, "i")` applied to a plain filter string. -/
def containsCI (hay needle : String) : Bool :=
  hasSub hay.toLower.toList needle.toLower.toList

/-- Feature sub-filters of a search request. -/
structure FeatureFilters where
  facing : Option String
  furnishing : Option String
  parking : Option ℤ
deriving Repr

/-- The parameters of `searchService.searchProperties`; absent query
parameters are `none`.  Numeric parameters arrive as the integers their
`parseInt` produces. -/
structure SearchParams where
  query : Option String
  type : Option String
  minPrice : Option ℤ
  maxPrice : Option ℤ
  minArea : Option ℤ
  maxArea : Option ℤ
  minBedrooms : Option ℤ
  maxBedrooms : Option ℤ
  bathrooms : Option ℤ
  city : Option String
  location : Option String
  amenities : Option (List String)
  features : Option FeatureFilters
  isFeatured : Option Bool
  isVerified : Option Bool
  page : ℕ
  limit : ℕ
  sortBy : String
deriving Repr

/-- A search request with no filters and the service defaults
`page = 1`, `limit = 12`, `sortBy = "relevance"`. -/
def emptySearchParams : SearchParams :=
  ⟨none, none, none, none, none, none, none, none, none, none, none, none,
   none, none, none, 1, 12, "relevance"⟩

/-- The filter object built by `searchService.searchProperties`:
conjunction of the active-listing guard and every supplied clause.  The
full-text index is external to this core, so the store's `$text`
predicate is a parameter. -/
def matchesSearchFilter (textMatch : String → Listing → Bool)
    (sp : SearchParams) (p : Listing) : Bool :=
  p.isActive && p.status == "active" &&
  (match sp.query with
   | some q => if q.trim == "" then true else textMatch q.trim p
   | none => true) &&
  (match sp.type with | some t => p.type == t | none => true) &&
  (match sp.minPrice with | some v => decide ((v : ℚ) ≤ p.price) | none => true) &&
  (match sp.maxPrice with | some v => decide (p.price ≤ (v : ℚ)) | none => true) &&
  (match sp.minArea with | some v => decide ((v : ℚ) ≤ p.area) | none => true) &&
  (match sp.maxArea with | some v => decide (p.area ≤ (v : ℚ)) | none => true) &&
  (match sp.minBedrooms with | some v => decide (v ≤ (p.bedrooms : ℤ)) | none => true) &&
  (match sp.maxBedrooms with | some v => decide ((p.bedrooms : ℤ) ≤ v) | none => true) &&
  (match sp.bathrooms with | some v => decide (v ≤ (p.bathrooms : ℤ)) | none => true) &&
  (match sp.city with | some c => containsCI p.city c | none => true) &&
  (match sp.location with | some l => containsCI p.location l | none => true) &&
  (match sp.isFeatured with | some b => p.isFeatured == b | none => true) &&
  (match sp.isVerified with | some b => p.isVerified == b | none => true) &&
  (match sp.amenities with
   | some l => if l.isEmpty then true else l.all fun a => p.amenities.contains a
   | none => true) &&
  (match sp.features with
   | some f =>
     (match f.facing with | some v => p.features.facing == v | none => true) &&
     (match f.furnishing with | some v => p.features.furnishing == v | none => true) &&
     (match f.parking with | some v => decide (v ≤ (p.features.parking : ℤ)) | none => true)
   | none => true)

/-- The `.sort()` key of `searchService.searchProperties` as a boolean
"may come before" relation.  `relevance` with a non-empty query defers
to the store's text score, passed as a parameter; every other mode reads
exactly the fields of its sort object. -/
def searchSortLe (textScore : String → Listing → ℚ) (sp : SearchParams)
    (a b : Listing) : Bool :=
  match sp.sortBy with
  | "price_asc" => decide (a.price ≤ b.price)
  | "price_desc" => decide (b.price ≤ a.price)
  | "area_asc" => decide (a.area ≤ b.area)
  | "area_desc" => decide (b.area ≤ a.area)
  | "newest" => decide (b.createdAt ≤ a.createdAt)
  | "oldest" => decide (a.createdAt ≤ b.createdAt)
  | "popular" =>
    decide (b.viewCount < a.viewCount) ||
    (a.viewCount == b.viewCount && decide (b.uniqueViews ≤ a.uniqueViews))
  | _ =>
    match sp.query with
    | some q =>
      if q.trim == "" then decide (b.createdAt ≤ a.createdAt)
      else decide (textScore q.trim b ≤ textScore q.trim a)
    | none => decide (b.createdAt ≤ a.createdAt)

/-- The full un-paginated ordered result sequence of
`searchService.searchProperties`. -/
def searchResultsAll (store : List Listing) (textMatch : String → Listing → Bool)
    (textScore : String → Listing → ℚ) (sp : SearchParams) : List Listing :=
  sortByRel (searchSortLe textScore sp) (store.filter (matchesSearchFilter textMatch sp))

/-- One result page: `skip = (page - 1) * limit` then `limit`. -/
def searchPage (store : List Listing) (textMatch : String → Listing → Bool)
    (textScore : String → Listing → ℚ) (sp : SearchParams) : List Listing :=
  ((searchResultsAll store textMatch textScore sp).drop ((sp.page - 1) * sp.limit)).take sp.limit

/-- Raw query parameters seen by `validateSearchProperties`; numeric
parameters arrive already through their `isNumeric`/`isInt` parse. -/
structure SearchQueryRaw where
  q : Option String
  type : Option String
  minPrice : Option ℤ
  maxPrice : Option ℤ
  minBedrooms : Option ℤ
  maxBedrooms : Option ℤ
  city : Option String
  location : Option String
  amenities : Option String
  page : Option ℤ
  limit : Option ℤ
  sortBy : Option String
deriving Repr

/-- A search request with every query parameter absent. -/
def emptySearchQuery : SearchQueryRaw :=
  ⟨none, none, none, none, none, none, none, none, none, none, none, none⟩

/-- One optional validation chain: no message when the parameter is
absent or its predicate holds. -/
def checkOpt (v : Option α) (ok : α → Bool) (msg : String) : List String :=
  match v with
  | some x => if ok x then [] else [msg]
  | none => []

/-- The `validateSearchProperties` chain of `propertyValidator.js`: the
collected validation error messages.  The only cross-field range check
in the whole chain is the custom `maxBedrooms >= minBedrooms` rule; no
check relates `minPrice` and `maxPrice` (each only passes `isNumeric`,
which the typed representation satisfies), and `amenities` only passes
`isString`. -/
def validateSearchProperties (r : SearchQueryRaw) : List String :=
  checkOpt r.q (fun s => decide (2 ≤ s.trim.length) && decide (s.trim.length ≤ 100))
    "Search query must be between 2 and 100 characters" ++
  checkOpt r.type (fun t => ["flat", "plot", "villa", "commercial"].contains t)
    "Invalid property type" ++
  checkOpt r.minBedrooms (fun v => decide (0 ≤ v) && decide (v ≤ 20))
    "Minimum bedrooms must be between 0 and 20" ++
  (checkOpt r.maxBedrooms (fun v => decide (0 ≤ v) && decide (v ≤ 20))
    "Maximum bedrooms must be between 0 and 20" ++
   (match r.maxBedrooms, r.minBedrooms with
    | some v, some m =>
      if v < m then ["Maximum bedrooms must be greater than minimum bedrooms"] else []
    | _, _ => [])) ++
  checkOpt r.city (fun s => decide (2 ≤ s.trim.length) && decide (s.trim.length ≤ 50))
    "City must be between 2 and 50 characters" ++
  checkOpt r.location (fun s => decide (2 ≤ s.trim.length) && decide (s.trim.length ≤ 100))
    "Location must be between 2 and 100 characters" ++
  checkOpt r.page (fun v => decide (1 ≤ v)) "Page must be a positive integer" ++
  checkOpt r.limit (fun v => decide (1 ≤ v) && decide (v ≤ 100))
    "Limit must be between 1 and 100" ++
  checkOpt r.sortBy
    (fun s => ["relevance", "price_asc", "price_desc", "newest", "popular"].contains s)
    "Invalid sort option"

/-- Decidable equality on results of fallible service calls. -/
instance {ε α : Type} [DecidableEq ε] [DecidableEq α] : DecidableEq (Except ε α) :=
  fun a b =>
    match a, b with
    | .ok x, .ok y =>
      if h : x = y then .isTrue (by rw [h]) else .isFalse (by simp [h])
    | .error x, .error y =>
      if h : x = y then .isTrue (by rw [h]) else .isFalse (by simp [h])
    | .ok _, .error _ => .isFalse (by simp)
    | .error _, .ok _ => .isFalse (by simp)

/-- Concrete fixture: an active listing. -/
def activeListing : Listing :=
  { id := 1, title := "A", type := "flat", price := 100, area := 50,
    bedrooms := 2, bathrooms := 1, city := "Jaipur", location := "Vaishali Nagar",
    amenities := [], features := ⟨"East", "Semi-Furnished", 0⟩,
    isFeatured := false, isVerified := false, isActive := true, status := "active",
    viewCount := 0, uniqueViews := 0, createdAt := 0 }

/-- Concrete fixture: a prior view event by an authenticated viewer
(user 7, session "s1") one hour before `now = 100000000`. -/
def priorAuthEvent : ViewEventDoc :=
  { property := 1, viewer := some 7, sessionId := "s1", viewedAt := 99500000,
    isUnique := true, interactions := Interactions.noFlags }

/-- Concrete fixture: the example event of the spec after its full
lifecycle - created by `recordView`, closed out with duration 400 and
scroll 100, then marked `inquirySent`. -/
def staleBouncedExample : ViewEventState :=
  updateInteraction .inquirySent (endViewSession 400 100 1000 (createdView true))

/-- Concrete fixture: an inactive listing with id 1 for the trending
counterexample. -/
def trendListingA : Listing := { activeListing with id := 1, isActive := false }

/-- Concrete fixture: an active listing with id 2. -/
def trendListingB : Listing := { activeListing with id := 2 }

/-- Concrete fixture: windowed view events - two unique views of
listing 1, one unique view of listing 2. -/
def trendEvents : List ViewEventDoc :=
  [ { property := 1, viewer := none, sessionId := "sa", viewedAt := 0,
      isUnique := true, interactions := Interactions.noFlags },
    { property := 1, viewer := none, sessionId := "sb", viewedAt := 0,
      isUnique := true, interactions := Interactions.noFlags },
    { property := 2, viewer := none, sessionId := "sc", viewedAt := 0,
      isUnique := true, interactions := Interactions.noFlags } ]

/-- Concrete fixture: a listing created at `now` whose lifetime counters
are 100 raw views and 0 unique views. -/
def pipeListingA : Listing :=
  { activeListing with id := 1, viewCount := 100, uniqueViews := 0, createdAt := 0 }

/-- Concrete fixture: a listing created ten days before `now` with small
lifetime counters. -/
def pipeListingB : Listing :=
  { activeListing with
    id := 2,
    viewCount := 5,
    uniqueViews := 5,
    createdAt := -(10 * millisPerDay) }

/-- Concrete fixture: three windowed unique view events of listing 2. -/
def pipeEvents : List ViewEventDoc :=
  [ { property := 2, viewer := none, sessionId := "pa", viewedAt := 0,
      isUnique := true, interactions := Interactions.noFlags },
    { property := 2, viewer := none, sessionId := "pb", viewedAt := 0,
      isUnique := true, interactions := Interactions.noFlags },
    { property := 2, viewer := none, sessionId := "pc", viewedAt := 0,
      isUnique := true, interactions := Interactions.noFlags } ]

/-- Concrete fixture: the reference listing of the similar-listings
counterexample, priced 100. -/
def refListing : Listing := { activeListing with id := 10, price := 100 }

/-- Concrete fixture: a candidate at the outer edge of the price band
(price 130, 0 views). -/
def simListingA : Listing := { activeListing with id := 11, price := 130, viewCount := 0 }

/-- Concrete fixture: a candidate with the exact reference price and
higher popularity (price 100, 50 views). -/
def simListingB : Listing := { activeListing with id := 12, price := 100, viewCount := 50 }

/-- Concrete fixture: the older of two equal-priced listings. -/
def cheapOld : Listing := { activeListing with id := 21, price := 50, createdAt := 100 }

/-- Concrete fixture: the newer of two equal-priced listings. -/
def cheapNew : Listing := { activeListing with id := 22, price := 50, createdAt := 200 }

end RealEstate

namespace RealEstate

lemma weightIf_nonneg (x : Bool) (w : ℚ) (hw : 0 ≤ w) : 0 ≤ (if x then w else 0) := by
  cases x <;> simp [hw]

lemma weightIf_le (x : Bool) (w : ℚ) (hw : 0 ≤ w) : (if x then w else 0) ≤ w := by
  cases x <;> simp [hw]

lemma weightIf_mono {x y : Bool} (w : ℚ) (hw : 0 ≤ w) (h : x = true → y = true) :
    (if x then w else 0) ≤ (if y then w else 0) := by
  cases x with
  | false => simpa using weightIf_nonneg y w hw
  | true => rw [h rfl]

lemma interactionsScore_nonneg (i : Interactions) : 0 ≤ interactionsScore i := by
  unfold interactionsScore
  repeat' apply add_nonneg
  all_goals exact weightIf_nonneg _ _ (by norm_num)

lemma interactionsScore_le_sixty (i : Interactions) : interactionsScore i ≤ 60 := by
  unfold interactionsScore
  have h : (60 : ℚ) = 5 + 5 + 10 + 8 + 7 + 10 + 15 := by norm_num
  rw [h]
  repeat' apply add_le_add
  all_goals exact weightIf_le _ _ (by norm_num)

lemma interactionsScore_mono {i i' : Interactions} (h : Interactions.le i i') :
    interactionsScore i ≤ interactionsScore i' := by
  obtain ⟨h1, h2, h3, h4, h5, h6, h7, h8⟩ := h
  unfold interactionsScore
  repeat' apply add_le_add
  · exact weightIf_mono _ (by norm_num) h1
  · exact weightIf_mono _ (by norm_num) h2
  · exact weightIf_mono _ (by norm_num) h3
  · exact weightIf_mono _ (by norm_num) h4
  · exact weightIf_mono _ (by norm_num) h5
  · exact weightIf_mono _ (by norm_num) h7
  · exact weightIf_mono _ (by norm_num) h8

lemma durationScore_nonneg (d : ℕ) : 0 ≤ durationScore d := by
  unfold durationScore
  split
  · exact le_min (by norm_num) (by positivity)
  · exact le_refl 0

lemma durationScore_mono {d d' : ℕ} (h : d ≤ d') : durationScore d ≤ durationScore d' := by
  unfold durationScore
  by_cases hd : 0 < d
  · have hd' : 0 < d' := lt_of_lt_of_le hd h
    rw [if_pos hd, if_pos hd']
    apply min_le_min le_rfl
    gcongr
  · rw [if_neg hd]
    exact durationScore_nonneg d' |>.trans_eq (by unfold durationScore; rfl)

lemma engagementRaw_nonneg (d s : ℕ) (i : Interactions) : 0 ≤ engagementRaw d s i := by
  unfold engagementRaw
  have := durationScore_nonneg d
  have := interactionsScore_nonneg i
  positivity

lemma engagementRaw_mono {d d' s s' : ℕ} {i i' : Interactions}
    (hd : d ≤ d') (hs : s ≤ s') (hi : Interactions.le i i') :
    engagementRaw d s i ≤ engagementRaw d' s' i' := by
  unfold engagementRaw
  apply add_le_add (add_le_add (durationScore_mono hd) _) (interactionsScore_mono hi)
  gcongr

lemma jsRound_mono {q q' : ℚ} (h : q ≤ q') : jsRound q ≤ jsRound q' := by
  exact Int.floor_le_floor (add_le_add_right h _)

lemma jsRound_nonneg {q : ℚ} (h : 0 ≤ q) : 0 ≤ jsRound q := by
  rw [jsRound, Int.le_floor]
  push_cast
  linarith

lemma engagementScore_nonneg (d s : ℕ) (i : Interactions) : 0 ≤ engagementScore d s i :=
  le_min (by norm_num) (jsRound_nonneg (engagementRaw_nonneg d s i))

lemma engagementScore_le_hundred (d s : ℕ) (i : Interactions) : engagementScore d s i ≤ 100 :=
  min_le_left _ _

lemma engagementScore_mono {d d' s s' : ℕ} {i i' : Interactions}
    (hd : d ≤ d') (hs : s ≤ s') (hi : Interactions.le i i') :
    engagementScore d s i ≤ engagementScore d' s' i' :=
  min_le_min le_rfl (jsRound_mono (engagementRaw_mono hd hs hi))

/-- C10: the engagement score is monotonically non-decreasing in view
duration, scroll depth and every interaction flag (pointwise), and its
value always lies in the interval `[0, 100]`. -/
theorem engagement_monotone_bounds :
    (∀ (d d' s s' : ℕ) (i i' : Interactions), d ≤ d' → s ≤ s' → Interactions.le i i' →
      engagementScore d s i ≤ engagementScore d' s' i') ∧
    (∀ (d s : ℕ) (i : Interactions),
      0 ≤ engagementScore d s i ∧ engagementScore d s i ≤ 100) :=
  ⟨fun _ _ _ _ _ _ hd hs hi => engagementScore_mono hd hs hi,
   fun d s i => ⟨engagementScore_nonneg d s i, engagementScore_le_hundred d s i⟩⟩

/-- Witness for C10 at concrete inputs. -/
theorem engagement_monotone_bounds_witness :
    engagementScore 3 10 Interactions.noFlags ≤ engagementScore 5 20 Interactions.allFlags ∧
    0 ≤ engagementScore 3 10 Interactions.noFlags ∧
    engagementScore 3 10 Interactions.noFlags ≤ 100 :=
  ⟨engagement_monotone_bounds.1 3 5 10 20 Interactions.noFlags Interactions.allFlags
      (by norm_num) (by norm_num) (by decide),
   (engagement_monotone_bounds.2 3 10 Interactions.noFlags).1,
   (engagement_monotone_bounds.2 3 10 Interactions.noFlags).2⟩

/-- C2 counterexample: with every interaction flag set the flags alone
contribute 60 points, exceeding the claimed 50-point cap, and an event
with zero duration and zero scroll depth already scores 60. -/
theorem interactions_exceed_fifty_cx :
    (50 : ℚ) < interactionsScore Interactions.allFlags ∧
    engagementScore 0 0 Interactions.allFlags = 60 := by
  constructor
  · simp only [interactionsScore, Interactions.allFlags]
    norm_num
  · simp only [engagementScore, engagementRaw, durationScore, interactionsScore,
      jsRound, Interactions.allFlags]
    norm_num

/-- C2 (amended): the interaction flags contribute at most 60 points via
the fixed weights (gallery 5, map 5, contact 10, phone 8, whatsapp 7,
favorited 10, inquiry 15, share 0), and the total engagement score is
clamped to `[0, 100]`. -/
theorem engagement_interactions_bounds :
    (∀ i : Interactions, 0 ≤ interactionsScore i ∧ interactionsScore i ≤ 60) ∧
    interactionsScore { Interactions.noFlags with imageGalleryOpened := true } = 5 ∧
    interactionsScore { Interactions.noFlags with mapViewed := true } = 5 ∧
    interactionsScore { Interactions.noFlags with contactClicked := true } = 10 ∧
    interactionsScore { Interactions.noFlags with phoneRevealed := true } = 8 ∧
    interactionsScore { Interactions.noFlags with whatsappClicked := true } = 7 ∧
    interactionsScore { Interactions.noFlags with favorited := true } = 10 ∧
    interactionsScore { Interactions.noFlags with inquirySent := true } = 15 ∧
    interactionsScore { Interactions.noFlags with shareClicked := true } = 0 ∧
    (∀ (d s : ℕ) (i : Interactions),
      0 ≤ engagementScore d s i ∧ engagementScore d s i ≤ 100) := by
  refine ⟨fun i => ⟨interactionsScore_nonneg i, interactionsScore_le_sixty i⟩,
    ?_, ?_, ?_, ?_, ?_, ?_, ?_, ?_,
    fun d s i => ⟨engagementScore_nonneg d s i, engagementScore_le_hundred d s i⟩⟩
  all_goals simp [interactionsScore, Interactions.noFlags]

lemma engagementScore_example :
    engagementScore 400 100 { Interactions.noFlags with inquirySent := true } = 65 := by
  simp only [engagementScore, engagementRaw, durationScore, interactionsScore,
    jsRound, Interactions.noFlags]
  norm_num

lemma engagementScore_defaults : engagementScore 0 0 Interactions.noFlags = 0 := by
  simp only [engagementScore, engagementRaw, durationScore, interactionsScore,
    jsRound, Interactions.noFlags]
  norm_num

lemma createdView_eq (u : Bool) :
    createdView u =
      { viewDuration := 0, scrollDepth := 0, interactions := Interactions.noFlags,
        bounced := true, isUnique := u, exitedAt := none } := by
  simp only [createdView, preSave]
  rw [if_pos]
  exact ⟨by norm_num, by rw [engagementScore_defaults]; norm_num⟩

/-- C6 counterexample: the spec's example event (created by
`recordView`, closed out with duration 400 and scroll 100, then marked
`inquirySent`) has engagement score 65 and is high-intent, yet its
stored `bounced` flag is still `true` - so `bounced` does not equal
"`viewDuration < 10` and score `< 10`" evaluated on the saved values,
and the example's claimed `bounced = false` fails. -/
theorem bounced_stale_cx :
    staleBouncedExample.bounced = true ∧
    staleBouncedExample.viewDuration = 400 ∧
    engagementScore staleBouncedExample.viewDuration staleBouncedExample.scrollDepth
      staleBouncedExample.interactions = 65 ∧
    isHighIntent staleBouncedExample.viewDuration staleBouncedExample.scrollDepth
      staleBouncedExample.interactions = true ∧
    ¬ (staleBouncedExample.viewDuration < 10 ∧
       engagementScore staleBouncedExample.viewDuration staleBouncedExample.scrollDepth
         staleBouncedExample.interactions < 10) := by
  have hstate : staleBouncedExample =
      { viewDuration := 400, scrollDepth := 100,
        interactions := { Interactions.noFlags with inquirySent := true },
        bounced := true, isUnique := true, exitedAt := some 1000 } := by
    simp [staleBouncedExample, updateInteraction, endViewSession, createdView_eq,
      Interactions.setFlag, Interactions.noFlags]
  rw [hstate]
  refine ⟨rfl, rfl, engagementScore_example, ?_, ?_⟩
  · simp [isHighIntent]
  · rw [engagementScore_example]
    norm_num

/-- C6 (amended): `bounced` is only ever set, never cleared, and only at
save time - the save middleware leaves `bounced` at
`old || (viewDuration < 10 && engagementScore < 10)`, every event
created by `recordView` starts with `bounced = true` (schema defaults
score 0), and the targeted updates `endViewSession` and
`updateInteraction` bypass the middleware and keep `bounced` unchanged,
so the spec's example event retains `bounced = true` despite score 65
and high intent. -/
theorem bounced_lifecycle_spec :
    (∀ e : ViewEventState, (preSave e).bounced =
      (e.bounced || decide (e.viewDuration < 10 ∧
        engagementScore e.viewDuration e.scrollDepth e.interactions < 10))) ∧
    (∀ u : Bool, (createdView u).bounced = true) ∧
    (∀ (d s : ℕ) (t : ℤ) (e : ViewEventState),
      (endViewSession d s t e).bounced = e.bounced) ∧
    (∀ (k : InteractionKind) (e : ViewEventState),
      (updateInteraction k e).bounced = e.bounced) := by
  refine ⟨fun e => ?_, fun u => by rw [createdView_eq], fun d s t e => rfl, fun k e => rfl⟩
  unfold preSave
  split
  · next h => simp [h]
  · next h => simp [h]

/-- C1: `recordView` is meant to mark a view unique when no prior event
for the listing shares the viewer identity or session within 24 hours,
but the duplicate `viewer` key in its `findOne` filter collapses the
first `$or` branch to `viewer != null`: after a single authenticated
view of listing 1 from session "s1", an anonymous view from the fresh
session "s2" is classified non-unique, and so is an authenticated view
by the unrelated user 9 from fresh session "s3", although the claimed
rule blocks neither. -/
theorem recordView_unique_code_bug :
    (recordView [] [priorAuthEvent] 1 none "s2" 100000000).view.isUnique = false ∧
    claimedRecentViewExists [priorAuthEvent] 1 none "s2" 100000000 = false ∧
    (recordView [] [priorAuthEvent] 1 (some 9) "s3" 100000000).view.isUnique = false ∧
    claimedRecentViewExists [priorAuthEvent] 1 (some 9) "s3" 100000000 = false := by
  decide

/-- C5 counterexample: the public property fetch (the controller calls
`getPropertyById` with `incrementView: true`) bumps the listing's
`viewCount` from 0 to 1 - a read operation does change a view
counter. -/
theorem getPropertyById_increments_cx :
    (getPropertyById [activeListing] 1 true).map (fun r => r.2.map fun q => q.viewCount) =
      .ok [1] ∧
    activeListing.viewCount = 0 := by
  decide

lemma map_update_proj (props : List Listing) (pid : ℕ) (f : Listing → Listing)
    (proj : Listing → β) (h : ∀ q, proj (f q) = proj q) :
    (props.map fun q => if q.id = pid then f q else q).map proj = props.map proj := by
  induction props with
  | nil => rfl
  | cons a t ih =>
    simp only [List.map_cons, ih]
    congr 1
    split
    · exact h a
    · rfl

/-- C5 (amended): `getPropertyById` never touches `uniqueViews` and,
with `incrementView` unset, changes nothing; but with `incrementView`
set (as the public route does) it increments the fetched listing's
`viewCount` by one whenever that listing is active - so a read does
change the raw view counter.  `recordView` increments the listing's
`viewCount` on every call and `uniqueViews` exactly on unique views. -/
theorem getPropertyById_counter_spec :
    (∀ (props : List Listing) (events : List ViewEventDoc) (pid : ℕ)
        (uid : Option ℕ) (sid : String) (now : ℤ),
      (recordView props events pid uid sid now).properties.map (fun q => q.viewCount) =
        props.map (fun q => if q.id = pid then q.viewCount + 1 else q.viewCount) ∧
      (recordView props events pid uid sid now).properties.map (fun q => q.uniqueViews) =
        props.map fun q =>
          if q.id = pid ∧ (recordView props events pid uid sid now).view.isUnique = true
          then q.uniqueViews + 1 else q.uniqueViews) ∧
    ∀ (props : List Listing) (pid : ℕ) (iv : Bool) (p : Listing) (props' : List Listing),
      getPropertyById props pid iv = .ok (p, props') →
      props'.map (fun q => q.uniqueViews) = props.map (fun q => q.uniqueViews) ∧
      (iv = false → props' = props) ∧
      (iv = true → props'.map (fun q => q.viewCount) =
        props.map fun q =>
          if q.id = pid ∧ p.isActive = true then q.viewCount + 1 else q.viewCount) := by
  constructor
  · intro props events pid uid sid now
    simp only [recordView]
    rcases Bool.eq_false_or_eq_true (recentViewExists events pid uid sid now) with hu | hu <;>
      refine ⟨?_, ?_⟩ <;>
      · rw [List.map_map]
        apply List.map_congr_left
        intro a _
        by_cases hid : a.id = pid <;>
          simp [Function.comp_apply, hid, hu]
  intro props pid iv p props' h
  unfold getPropertyById at h
  rcases hfind : props.find? (fun q => q.id == pid) with _ | q0
  · rw [hfind] at h
    exact absurd h (by simp)
  · rw [hfind] at h
    simp only [Except.ok.injEq, Prod.mk.injEq] at h
    obtain ⟨hq, hprops⟩ := h
    rw [← hprops, ← hq]
    refine ⟨?_, ?_, ?_⟩
    · split
      · exact map_update_proj _ _ _ _ (fun q => rfl)
      · rfl
    · intro hiv
      rw [hiv]
      simp
    · intro hiv
      rw [hiv]
      by_cases hact : q0.isActive = true
      · rw [if_pos (by simp [hact])]
        rw [List.map_map]
        apply List.map_congr_left
        intro a _
        by_cases hid : a.id = pid
        · simp [hid, hact]
        · simp [hid]
      · have hact' : q0.isActive = false := by
          cases hb : q0.isActive
          · rfl
          · exact absurd hb hact
        rw [if_neg (by simp [hact'])]
        simp [hact']

/-- Witness for C5 at a concrete input: fetching the active fixture
listing with `incrementView` set. -/
theorem getPropertyById_counter_spec_witness :
    [{ activeListing with viewCount := 1 }].map (fun q => q.uniqueViews) =
      [activeListing].map (fun q => q.uniqueViews) ∧
    (true = false → [{ activeListing with viewCount := 1 }] = [activeListing]) ∧
    (true = true → [{ activeListing with viewCount := 1 }].map (fun q => q.viewCount) =
      [activeListing].map fun q =>
        if q.id = 1 ∧ activeListing.isActive = true then q.viewCount + 1 else q.viewCount) :=
  getPropertyById_counter_spec.2 [activeListing] 1 true activeListing
    [{ activeListing with viewCount := 1 }] (by decide)

lemma mem_insertByRel {α : Type} (le : α → α → Bool) (x : α) (l : List α) (y : α) :
    y ∈ insertByRel le x l ↔ y = x ∨ y ∈ l := by
  induction l with
  | nil => simp [insertByRel]
  | cons a t ih =>
    simp only [insertByRel]
    split
    · simp [List.mem_cons]
    · simp only [List.mem_cons, ih]
      tauto

lemma mem_sortByRel {α : Type} (le : α → α → Bool) (l : List α) (y : α) :
    y ∈ sortByRel le l ↔ y ∈ l := by
  induction l with
  | nil => simp [sortByRel]
  | cons a t ih => simp [sortByRel, mem_insertByRel, ih, List.mem_cons]

lemma pairwise_insertByRel {α : Type} {le : α → α → Bool}
    (htot : ∀ a b, le a b = true ∨ le b a = true)
    (htrans : ∀ a b c, le a b = true → le b c = true → le a c = true)
    (x : α) {l : List α} (hl : l.Pairwise fun a b => le a b = true) :
    (insertByRel le x l).Pairwise fun a b => le a b = true := by
  induction l with
  | nil => simp [insertByRel]
  | cons a t ih =>
    rcases List.pairwise_cons.1 hl with ⟨ha, ht⟩
    simp only [insertByRel]
    split
    · next hxa =>
      refine List.pairwise_cons.2 ⟨?_, hl⟩
      intro b hb
      rcases List.mem_cons.1 hb with rfl | hb'
      · exact hxa
      · exact htrans _ _ _ hxa (ha b hb')
    · next hxa =>
      have hax : le a x = true := by
        rcases htot x a with h | h
        · exact absurd h hxa
        · exact h
      refine List.pairwise_cons.2 ⟨?_, ih ht⟩
      intro b hb
      rcases (mem_insertByRel le x t b).1 hb with rfl | hb'
      · exact hax
      · exact ha b hb'

lemma pairwise_sortByRel {α : Type} {le : α → α → Bool}
    (htot : ∀ a b, le a b = true ∨ le b a = true)
    (htrans : ∀ a b c, le a b = true → le b c = true → le a c = true)
    (l : List α) :
    (sortByRel le l).Pairwise fun a b => le a b = true := by
  induction l with
  | nil => simp [sortByRel]
  | cons a t ih => exact pairwise_insertByRel htot htrans a ih

lemma trendGroupLe_total (a b : TrendGroup) :
    trendGroupLe a b = true ∨ trendGroupLe b a = true := by
  simp only [trendGroupLe, Bool.or_eq_true, Bool.and_eq_true, decide_eq_true_eq, beq_iff_eq]
  omega

lemma trendGroupLe_trans (a b c : TrendGroup) :
    trendGroupLe a b = true → trendGroupLe b c = true → trendGroupLe a c = true := by
  simp only [trendGroupLe, Bool.or_eq_true, Bool.and_eq_true, decide_eq_true_eq, beq_iff_eq]
  omega

/-- C3 counterexample: with `limit = 1`, an inactive listing (two
windowed unique views) occupies the single pre-filter slot, so the
aggregation returns the empty list even though the active listing 2 owns
the top windowed unique-view count (one) among active listings - the
claim that every such listing appears in the result fails. -/
theorem trending_limit_before_active_cx :
    getTrendingProperties trendEvents [trendListingA, trendListingB] 1 0 = [] ∧
    trendListingB.isActive = true ∧
    trendListingA.isActive = false ∧
    (mkTrendGroup (trendEvents.filter fun e =>
      decide ((0 : ℤ) - 7 * millisPerDay ≤ e.viewedAt)) 2).uniqueViews = 1 := by
  decide

/-- C3 (amended): the trending aggregation returns at most `limit`
groups, ordered by windowed unique-view count descending with raw-count
tie-break, every returned group belongs to an active listing and its
counts are the aggregates over the 7-day event window - but the
`$limit` stage runs before the active-listing filter, so the result is
the set of active listings among the top `limit` groups overall, and an
active listing may be displaced by inactive ones. -/
theorem trending_aggregation_spec :
    ∀ (events : List ViewEventDoc) (props : List Listing) (limit : ℕ) (now : ℤ),
      (getTrendingProperties events props limit now).length ≤ limit ∧
      (getTrendingProperties events props limit now).Pairwise
        (fun a b => trendGroupLe a b = true) ∧
      ∀ g ∈ getTrendingProperties events props limit now,
        (props.any fun p => p.id == g.id && p.isActive) = true ∧
        g.viewCount = ((events.filter fun e =>
          decide (now - 7 * millisPerDay ≤ e.viewedAt)).filter fun e =>
            e.property == g.id).length ∧
        g.uniqueViews = (((events.filter fun e =>
          decide (now - 7 * millisPerDay ≤ e.viewedAt)).filter fun e =>
            e.property == g.id).filter fun e => e.isUnique).length := by
  intro events props limit now
  simp only [getTrendingProperties]
  refine ⟨?_, ?_, ?_⟩
  · exact le_trans (List.length_filter_le _ _) (List.length_take_le _ _)
  · exact List.Pairwise.sublist
      ((List.filter_sublist _).trans (List.take_sublist _ _))
      (pairwise_sortByRel trendGroupLe_total trendGroupLe_trans _)
  · intro g hg
    obtain ⟨htake, hpred⟩ := List.mem_filter.1 hg
    obtain ⟨k, hk, hgk⟩ := List.mem_map.1
      ((mem_sortByRel _ _ _).1 (List.mem_of_mem_take htake))
    refine ⟨hpred, ?_, ?_⟩
    · rw [← hgk]
      rfl
    · rw [← hgk]
      rfl

/-- Witness for C3 at a concrete input: the group of listing 2 in the
aggregation over the fixture events. -/
theorem trending_aggregation_spec_witness :
    ([trendListingB].any fun p =>
      p.id == (⟨2, 1, 1, 0⟩ : TrendGroup).id && p.isActive) = true ∧
    (⟨2, 1, 1, 0⟩ : TrendGroup).viewCount = ((trendEvents.filter fun e =>
      decide ((0 : ℤ) - 7 * millisPerDay ≤ e.viewedAt)).filter fun e =>
        e.property == (⟨2, 1, 1, 0⟩ : TrendGroup).id).length ∧
    (⟨2, 1, 1, 0⟩ : TrendGroup).uniqueViews = (((trendEvents.filter fun e =>
      decide ((0 : ℤ) - 7 * millisPerDay ≤ e.viewedAt)).filter fun e =>
        e.property == (⟨2, 1, 1, 0⟩ : TrendGroup).id).filter fun e =>
          e.isUnique).length :=
  (trending_aggregation_spec trendEvents [trendListingB] 2 0).2.2 ⟨2, 1, 1, 0⟩ (by decide)

/-- C4 counterexample: with lifetime counters 100 raw / 0 unique and no
windowed events, listing 1 enters the pipeline with trend score 100
while the claimed windowed score is 0; and listing 2, created outside
the window but with windowed claimed score 9, is dropped entirely - the
score is computed from lifetime counters over recently created listings,
not from windowed ViewEvent aggregates. -/
theorem trend_score_lifetime_cx :
    (trendingPropertiesPipeline [pipeListingA, pipeListingB] 7 10 0).map
      (fun e => (e.1.id, e.2)) = [(1, 100)] ∧
    claimedTrendScore pipeEvents 1 7 0 = 0 ∧
    claimedTrendScore pipeEvents 2 7 0 = 9 ∧
    ∀ e ∈ trendingPropertiesPipeline [pipeListingA, pipeListingB] 7 10 0, e.1.id ≠ 2 := by
  decide

/-- C4 (amended): every entry of the trending pipeline carries
`trendScore = viewCount * 1 + uniqueViews * 2` computed from the
listing's cumulative lifetime counters, and the pipeline only considers
active listings whose creation time lies within the trailing window. -/
theorem trending_pipeline_spec :
    ∀ (props : List Listing) (days limit : ℕ) (now : ℤ),
      (trendingPropertiesPipeline props days limit now).length ≤ limit ∧
      ∀ e ∈ trendingPropertiesPipeline props days limit now,
        e.2 = (e.1.viewCount : ℤ) * 1 + (e.1.uniqueViews : ℤ) * 2 ∧
        e.1.isActive = true ∧ e.1.status = "active" ∧
        now - (days : ℤ) * millisPerDay ≤ e.1.createdAt ∧
        e.1 ∈ props := by
  intro props days limit now
  simp only [trendingPropertiesPipeline]
  refine ⟨List.length_take_le _ _, ?_⟩
  intro e he
  obtain ⟨p, hp, hpe⟩ := List.mem_map.1
    ((mem_sortByRel _ _ _).1 (List.mem_of_mem_take he))
  obtain ⟨hpmem, hpred⟩ := List.mem_filter.1 hp
  simp only [Bool.and_eq_true, decide_eq_true_eq, beq_iff_eq] at hpred
  rw [← hpe]
  exact ⟨rfl, hpred.1.1, hpred.1.2, hpred.2, hpmem⟩

/-- Witness for C4 at a concrete input. -/
theorem trending_pipeline_spec_witness :
    (pipeListingA, (100 : ℤ)).2 =
      ((pipeListingA.viewCount : ℤ) * 1 + (pipeListingA.uniqueViews : ℤ) * 2) ∧
    pipeListingA.isActive = true ∧ pipeListingA.status = "active" ∧
    (0 : ℤ) - ((7 : ℕ) : ℤ) * millisPerDay ≤ pipeListingA.createdAt ∧
    pipeListingA ∈ [pipeListingA] :=
  (trending_pipeline_spec [pipeListingA] 7 10 0).2 (pipeListingA, 100) (by decide)

/-- C7 counterexample: a search request whose only defect is
`minPrice = 100 > 50 = maxPrice` passes `validateSearchProperties` with
no error, so no `InvalidRange` rejection happens; the search then runs
against the store with a price filter no listing can satisfy, while the
same request without the price range matches the fixture listing. -/
theorem minPrice_gt_maxPrice_accepted_cx :
    validateSearchProperties
      { emptySearchQuery with minPrice := some 100, maxPrice := some 50 } = [] ∧
    matchesSearchFilter (fun _ _ => true)
      { emptySearchParams with minPrice := some 100, maxPrice := some 50 }
      activeListing = false ∧
    matchesSearchFilter (fun _ _ => true) emptySearchParams activeListing = true := by
  refine ⟨rfl, ?_, ?_⟩
  · simp only [matchesSearchFilter, emptySearchParams, activeListing]
    norm_num
  · simp only [matchesSearchFilter, emptySearchParams, activeListing]
    norm_num

/-- C7 (amended): the only cross-field range check in the search
validation chain is the bedroom rule - `maxBedrooms < minBedrooms`
fails with its field message - while a request carrying only
`minPrice > maxPrice` passes validation untouched, and the resulting
store filter is unsatisfiable (every listing fails it), so the search
returns an empty page instead of an `InvalidRange` error. -/
theorem search_range_validation_spec :
    (∀ a b : ℤ, validateSearchProperties
      { emptySearchQuery with minPrice := some a, maxPrice := some b } = []) ∧
    (∀ a b : ℤ, 0 ≤ a → a ≤ 20 → 0 ≤ b → b ≤ 20 → b < a →
      validateSearchProperties
        { emptySearchQuery with minBedrooms := some a, maxBedrooms := some b } =
        ["Maximum bedrooms must be greater than minimum bedrooms"]) ∧
    (∀ (a b : ℤ) (tm : String → Listing → Bool) (sp : SearchParams) (p : Listing),
      sp.minPrice = some a → sp.maxPrice = some b → b < a →
      matchesSearchFilter tm sp p = false) := by
  refine ⟨fun a b => rfl, ?_, ?_⟩
  · intro a b h0a ha20 h0b hb20 hba
    simp [validateSearchProperties, emptySearchQuery, checkOpt, h0a, ha20, h0b, hb20, hba]
  · intro a b tm sp p hmin hmax hba
    rw [Bool.eq_false_iff]
    intro h
    simp only [matchesSearchFilter, hmin, hmax, Bool.and_eq_true, decide_eq_true_eq] at h
    have h1 : (a : ℚ) ≤ p.price := by tauto
    have h2 : p.price ≤ (b : ℚ) := by tauto
    have hab : (a : ℚ) ≤ (b : ℚ) := le_trans h1 h2
    rw [Int.cast_le] at hab
    omega

/-- Witness for C7 at concrete inputs. -/
theorem search_range_validation_spec_witness :
    validateSearchProperties
      { emptySearchQuery with minPrice := some 7, maxPrice := some 3 } = [] ∧
    validateSearchProperties
      { emptySearchQuery with minBedrooms := some 3, maxBedrooms := some 2 } =
      ["Maximum bedrooms must be greater than minimum bedrooms"] ∧
    matchesSearchFilter (fun _ _ => true)
      { emptySearchParams with minPrice := some 100, maxPrice := some 50 }
      activeListing = false :=
  ⟨search_range_validation_spec.1 7 3,
   search_range_validation_spec.2.1 3 2 (by norm_num) (by norm_num) (by norm_num)
     (by norm_num) (by norm_num),
   search_range_validation_spec.2.2 100 50 (fun _ _ => true)
     { emptySearchParams with minPrice := some 100, maxPrice := some 50 }
     activeListing rfl rfl (by norm_num)⟩

lemma similar_fixture_find :
    ([refListing, simListingA, simListingB].find? fun p => p.id == 10) = some refListing := by
  decide

lemma similar_fixture_eval :
    getSimilarProperties [refListing, simListingA, simListingB] 10 4 =
      .ok [simListingA, simListingB] := by
  simp only [getSimilarProperties, similar_fixture_find]
  norm_num [refListing, simListingA, simListingB, activeListing,
    List.filter_cons, List.filter_nil]

/-- C8 counterexample: the similar-listings query applies no similarity
ranking - listing 12 (exact reference price, 50 views) scores 20 under
the claimed similarity score against 15 for listing 11 (price at the
band edge, 0 views) and is also more popular, yet the result keeps the
store order `[11, 12]` instead of ranking 12 first. -/
theorem similar_not_ranked_cx :
    (getSimilarProperties [refListing, simListingA, simListingB] 10 4).map
      (fun l => l.map fun q => q.id) = .ok [11, 12] ∧
    claimedSimilarityScore refListing simListingB = 20 ∧
    claimedSimilarityScore refListing simListingA = 15 ∧
    simListingA.viewCount < simListingB.viewCount := by
  refine ⟨?_, ?_, ?_, by decide⟩
  · rw [similar_fixture_eval]
    decide
  · simp only [claimedSimilarityScore, refListing, simListingA, simListingB, activeListing]
    norm_num
  · simp only [claimedSimilarityScore, refListing, simListingA, simListingB, activeListing]
    norm_num

/-- C8 (amended): the similar-listings lookup fails with `NotFound`
exactly when the reference listing is absent, and otherwise returns at
most `limit` listings, each active, distinct from the reference, of the
reference's exact type and city, with price inside
`[0.7, 1.3]` times the reference price - but in store order, with no
similarity-score ranking applied. -/
theorem similar_properties_spec :
    ∀ (props : List Listing) (pid limit : ℕ),
      ((getSimilarProperties props pid limit = .error "Property not found") ↔
        props.find? (fun p => p.id == pid) = none) ∧
      ∀ (reference : Listing) (res : List Listing),
        props.find? (fun p => p.id == pid) = some reference →
        getSimilarProperties props pid limit = .ok res →
        res.length ≤ limit ∧
        ∀ q ∈ res, q ∈ props ∧ q.id ≠ pid ∧ q.isActive = true ∧ q.status = "active" ∧
          q.type = reference.type ∧ q.city = reference.city ∧
          reference.price * (7 / 10) ≤ q.price ∧ q.price ≤ reference.price * (13 / 10) := by
  intro props pid limit
  constructor
  · unfold getSimilarProperties
    cases hfind : props.find? (fun p => p.id == pid) with
    | none => simp
    | some r => simp
  · intro reference res hfind hok
    unfold getSimilarProperties at hok
    rw [hfind] at hok
    simp only [Except.ok.injEq] at hok
    subst hok
    refine ⟨List.length_take_le _ _, ?_⟩
    intro q hq
    obtain ⟨hqmem, hpred⟩ := List.mem_filter.1 (List.mem_of_mem_take hq)
    simp only [Bool.and_eq_true, decide_eq_true_eq, beq_iff_eq, bne_iff_ne] at hpred
    obtain ⟨⟨⟨⟨⟨⟨hne, hact⟩, hstat⟩, htyp⟩, hcity⟩, hlo⟩, hhi⟩ := hpred
    exact ⟨hqmem, hne, hact, hstat, htyp, hcity, hlo, hhi⟩

/-- Witness for C8 at a concrete input: listing 11 in the fixture
result. -/
theorem similar_properties_spec_witness :
    simListingA ∈ [refListing, simListingA, simListingB] ∧
    simListingA.id ≠ 10 ∧ simListingA.isActive = true ∧ simListingA.status = "active" ∧
    simListingA.type = refListing.type ∧ simListingA.city = refListing.city ∧
    refListing.price * (7 / 10) ≤ simListingA.price ∧
    simListingA.price ≤ refListing.price * (13 / 10) :=
  ((similar_properties_spec [refListing, simListingA, simListingB] 10 4).2
    refListing [simListingA, simListingB] similar_fixture_find similar_fixture_eval).2
    simListingA (by decide)

lemma searchSortLe_price_asc {ts : String → Listing → ℚ} {sp : SearchParams}
    (h : sp.sortBy = "price_asc") (a b : Listing) :
    searchSortLe ts sp a b = decide (a.price ≤ b.price) := by
  simp [searchSortLe, h]

lemma searchSortLe_price_desc {ts : String → Listing → ℚ} {sp : SearchParams}
    (h : sp.sortBy = "price_desc") (a b : Listing) :
    searchSortLe ts sp a b = decide (b.price ≤ a.price) := by
  simp [searchSortLe, h]

/-- C9 counterexample: under `price_asc` two equal-priced listings come
back in store order `[21, 22]`, although listing 22 was created later -
the sort key reads only `price`, so the claimed creation-time-descending
tie-break does not hold. -/
theorem price_sort_tie_cx :
    (searchResultsAll [cheapOld, cheapNew] (fun _ _ => true) (fun _ _ => 0)
      { emptySearchParams with sortBy := "price_asc" }).map (fun p => p.id) = [21, 22] ∧
    cheapOld.price = cheapNew.price ∧
    cheapOld.createdAt < cheapNew.createdAt := by
  decide

/-- C9: under `price_asc` the full un-paginated result sequence is
non-decreasing in price, and under `price_desc` non-increasing
(amended: with no tie-break - equal-priced listings keep store
order). -/
theorem price_sort_monotone :
    ∀ (store : List Listing) (tm : String → Listing → Bool)
      (ts : String → Listing → ℚ) (sp : SearchParams),
      (sp.sortBy = "price_asc" →
        (searchResultsAll store tm ts sp).Pairwise fun a b => a.price ≤ b.price) ∧
      (sp.sortBy = "price_desc" →
        (searchResultsAll store tm ts sp).Pairwise fun a b => b.price ≤ a.price) := by
  intro store tm ts sp
  constructor
  · intro h
    have hp := @pairwise_sortByRel Listing (searchSortLe ts sp)
      (fun a b => by
        rw [searchSortLe_price_asc h, searchSortLe_price_asc h]
        rcases le_total a.price b.price with hle | hle
        · exact Or.inl (decide_eq_true hle)
        · exact Or.inr (decide_eq_true hle))
      (fun a b c hab hbc => by
        rw [searchSortLe_price_asc h] at hab hbc ⊢
        exact decide_eq_true
          (le_trans (of_decide_eq_true hab) (of_decide_eq_true hbc)))
      (store.filter (matchesSearchFilter tm sp))
    exact hp.imp fun hab => of_decide_eq_true ((searchSortLe_price_asc h _ _) ▸ hab)
  · intro h
    have hp := @pairwise_sortByRel Listing (searchSortLe ts sp)
      (fun a b => by
        rw [searchSortLe_price_desc h, searchSortLe_price_desc h]
        rcases le_total b.price a.price with hle | hle
        · exact Or.inl (decide_eq_true hle)
        · exact Or.inr (decide_eq_true hle))
      (fun a b c hab hbc => by
        rw [searchSortLe_price_desc h] at hab hbc ⊢
        exact decide_eq_true
          (le_trans (of_decide_eq_true hbc) (of_decide_eq_true hab)))
      (store.filter (matchesSearchFilter tm sp))
    exact hp.imp fun hab => of_decide_eq_true ((searchSortLe_price_desc h _ _) ▸ hab)

/-- Witness for C9 at a concrete input. -/
theorem price_sort_monotone_witness :
    (searchResultsAll [cheapOld, cheapNew] (fun _ _ => true) (fun _ _ => 0)
      { emptySearchParams with sortBy := "price_asc" }).Pairwise
      (fun a b => a.price ≤ b.price) :=
  (price_sort_monotone [cheapOld, cheapNew] (fun _ _ => true) (fun _ _ => 0)
    { emptySearchParams with sortBy := "price_asc" }).1 rfl

end RealEstate
